import Mathlib

/-!
Shallow embedding of the budgenator repository (src/core/models.py,
src/core/managers.py, src/telegram/bot.py, src/task_manager/tasks.py)
and proofs about the spec's claims.

Conventions:
* Python `Decimal` money amounts are modelled as `Int` (the claims only use
  addition, subtraction and comparison with zero, so the fixed-point scale is
  irrelevant).
* A raised Python exception is modelled as `Except.error` carrying a `PyError`
  naming the exception class.
* Database stores are explicit values (`CoreStore`, `ScheduleStore`) threaded
  through the manager operations; a SELECT is a lookup, an UPDATE/DELETE is a
  pure transformation, and a commit is the returned store.
-/

namespace Budgenator

/-- The Python exception classes raised by the embedded code paths. -/
inductive PyError where
  | attributeError
  | typeError
  | valueError
  | keyError
  | integrityError
deriving DecidableEq, Repr

/-- `True` when an `Except` result is a normal return, `false` when the
Python code raised. -/
def exceptOk {α : Type} (r : Except PyError α) : Bool :=
  match r with
  | .ok _ => true
  | .error _ => false

/-! ## core/models.py -/

/-- `State` enum: chat lifecycle states. -/
inductive State where
  | INITIAL
  | CONFIGURED
  | TERMINATED
deriving DecidableEq, Repr

/-- `ScheduleBasis` enum. -/
inductive ScheduleBasis where
  | DAILY
  | DAY_OF_THE_WEEK
  | DAY_OF_THE_MONTH
deriving DecidableEq, Repr

/-- `DayOfTheWeek` enum members. -/
inductive DayOfTheWeek where
  | MONDAY
  | TUESDAY
  | WEDNESDAY
  | THURSDAY
  | FRIDAY
  | SATURDAY
  | SUNDAY
deriving DecidableEq, Repr

/-- The `_value_` string of each `DayOfTheWeek` member. -/
def DayOfTheWeek.value : DayOfTheWeek → String
  | .MONDAY => "MONDAY"
  | .TUESDAY => "TUESDAY"
  | .WEDNESDAY => "WEDNESDAY"
  | .THURSDAY => "THURSDAY"
  | .FRIDAY => "FRIDAY"
  | .SATURDAY => "SATURDAY"
  | .SUNDAY => "SUNDAY"

/-- The `ordinal_number` attribute set by `DayOfTheWeek.__new__`
(Monday = 1 … Sunday = 7). -/
def DayOfTheWeek.ordinal_number : DayOfTheWeek → Nat
  | .MONDAY => 1
  | .TUESDAY => 2
  | .WEDNESDAY => 3
  | .THURSDAY => 4
  | .FRIDAY => 5
  | .SATURDAY => 6
  | .SUNDAY => 7

/-- The `is_weekend` attribute set by `DayOfTheWeek.__new__`. -/
def DayOfTheWeek.is_weekend : DayOfTheWeek → Bool
  | .SATURDAY => true
  | .SUNDAY => true
  | _ => false

/-- Enum lookup by value, `DayOfTheWeek(s)` for a string `s`: returns the
member whose `_value_` equals `s`, raising `ValueError` (here: `none`) for
any other string. -/
def DayOfTheWeek.fromValue (s : String) : Option DayOfTheWeek :=
  [DayOfTheWeek.MONDAY, .TUESDAY, .WEDNESDAY, .THURSDAY, .FRIDAY,
   .SATURDAY, .SUNDAY].find? (fun d => d.value == s)

/-- An `EventType` enum member with the attributes `EventType.__new__` sets.
The signature in the source is
`__new__(cls, value, task: str, model: Base, requires_chat_id: bool = False)`. -/
structure EventType where
  value : String
  task : String
  model : Bool
  requires_chat_id : Bool
deriving DecidableEq, Repr

/-- `EventType.__new__` applied to a three-element member tuple: each member of
the enum is declared as `VALUE = "VALUE", "<task path>", True`, so the third
tuple element `True` binds to the `model` parameter and `requires_chat_id`
keeps its default `False`. -/
def EventType.new (value task : String) (model : Bool) : EventType :=
  { value := value, task := task, model := model, requires_chat_id := false }

def EventType.REPLENISHMENT : EventType :=
  EventType.new "REPLENISHMENT" "task_manager.celery_config.refill_balance_task" true

def EventType.ANNULMENT : EventType :=
  EventType.new "ANNULMENT" "task_manager.celery_config.annul_balance_task" true

def EventType.REMINDER : EventType :=
  EventType.new "REMINDER" "task_manager.celery_config.send_reminder_task" true

/-- A `datetime.time` value as used by the code: hour and minute. -/
structure PyTime where
  hour : Nat
  minute : Nat
deriving DecidableEq, Repr

/-- The values assignable to `ScheduleEntry.day`, following the source's own
annotation `day: DayOfTheWeek | str | int = None`. -/
inductive DayValue where
  | int (n : Int)
  | str (s : String)
  | weekday (d : DayOfTheWeek)
deriving DecidableEq, Repr

/-- The `ScheduleEntry` data-transfer object. `_day` is the backing field of
the `day` property. -/
structure ScheduleEntry where
  event_type : EventType
  basis : Option ScheduleBasis
  time : Option PyTime
  _day : Option DayValue
deriving DecidableEq, Repr

/-- `ScheduleEntry.__init__`: plain field assignments; it writes `self._day`
directly (not through the `day` property), so no validation runs at
construction time. -/
def ScheduleEntry.init (event_type : EventType) (basis : Option ScheduleBasis)
    (time : Option PyTime) (day : Option DayValue) : ScheduleEntry :=
  { event_type := event_type, basis := basis, time := time, _day := day }

/-- `ScheduleEntry._validate_day`. For `DAILY` the source raises
`AttributeError`. For `DAY_OF_THE_MONTH` it raises `AttributeError` unless the
day is an int in `[1, 31]`. For `DAY_OF_THE_WEEK` it calls
`DayOfTheWeek(self.day)`; a member (or a member's value string) is accepted,
any other value raises `ValueError`, whose handler then formats
`', '.join(DayOfTheWeek)` — joining enum members rather than strings — which
itself raises `TypeError` while building the intended `AttributeError`
message. A `basis` matching no case (e.g. unset) validates nothing. -/
def ScheduleEntry.validateDay (e : ScheduleEntry) : Except PyError Unit :=
  match e.basis with
  | some .DAILY => .error .attributeError
  | some .DAY_OF_THE_MONTH =>
      match e._day with
      | some (.int n) => if 1 ≤ n ∧ n ≤ 31 then .ok () else .error .attributeError
      | _ => .error .attributeError
  | some .DAY_OF_THE_WEEK =>
      match e._day with
      | some (.weekday _) => .ok ()
      | some (.str s) =>
          match DayOfTheWeek.fromValue s with
          | some _ => .ok ()
          | none => .error .typeError
      | _ => .error .typeError
  | none => .ok ()

/-- The `day` property setter: assigns `self._day = value` first, then runs
`_validate_day` only when `value is not None`. (On validation failure the
object keeps the already-assigned invalid day; the raised error is what the
caller observes.) -/
def ScheduleEntry.setDay (e : ScheduleEntry) (value : Option DayValue) :
    Except PyError ScheduleEntry :=
  let e' := { e with _day := value }
  match value with
  | none => .ok e'
  | some _ =>
      match e'.validateDay with
      | .ok _ => .ok e'
      | .error err => .error err

/-! ## Persisted records and stores

`Chat` in `core/models.py` declares exactly the columns `chat_id`, `state`,
`created_at`, `latest_contact` (timestamps are modelled as `Int`).  It declares
no `schedule_ids` or `task_ids` columns, although `core/managers.py` reads
them in `add_scheduler_objects_pair` and `collect_ids_for_termination`; those
attribute accesses raise `AttributeError`, which the embedding models through
the explicit column list `chatColumns` below.

`Budget` declares exactly `budget_id`, `chat_id`, `balance`; it declares no
`replenishment` column, although `engage` assigns one on the instance (a plain
Python attribute, never persisted) and `top_up` / `change_replenishment` read
or update it on the class (raising at that point).  `budget_id` is immaterial
to every claim and omitted from the record. -/

/-- A row of the `chat` table (declared columns only). -/
structure ChatRec where
  chat_id : Int
  state : State
  created_at : Int
  latest_contact : Int
deriving DecidableEq, Repr

/-- A row of the `budget` table (declared columns only). -/
structure BudgetRec where
  chat_id : Int
  balance : Int
deriving DecidableEq, Repr

/-- The core store: the `chat` and `budget` tables. -/
structure CoreStore where
  chats : List ChatRec
  budgets : List BudgetRec
deriving DecidableEq, Repr

/-- The columns the `Chat` model actually declares. -/
def chatColumns : List String := ["chat_id", "state", "created_at", "latest_contact"]

/-- The columns the `Budget` model actually declares. -/
def budgetColumns : List String := ["budget_id", "chat_id", "balance"]

/-- Attribute access on the `Chat` model class: `AttributeError` for any name
that is not a declared column. -/
def chatColumn (name : String) : Except PyError String :=
  if chatColumns.contains name then .ok name else .error .attributeError

/-- A `CrontabSchedule` row in the schedule store. -/
structure CrontabScheduleRec where
  id : Int
  minute : Nat
  hour : Nat
  day_of_week : Option Nat
  day_of_month : Option DayValue
  timezone : String
deriving DecidableEq, Repr

/-- A `PeriodicTask` row in the schedule store. -/
structure PeriodicTaskRec where
  id : Int
  name : String
  task : String
  crontab_id : Int
deriving DecidableEq, Repr

/-- The schedule store: the crontab-schedule and periodic-task tables. -/
structure ScheduleStore where
  crontabs : List CrontabScheduleRec
  tasks : List PeriodicTaskRec
deriving DecidableEq, Repr

/-! ## core/managers.py — ChatManager -/

/-- `select(Chat).where(Chat.chat_id == chat_id)`, first row. -/
def chatLookup (s : CoreStore) (chat_id : Int) : Option ChatRec :=
  s.chats.find? (fun c => c.chat_id == chat_id)

/-- `select(Budget).where(Budget.chat_id == chat_id)`, first row. -/
def budgetLookup (s : CoreStore) (chat_id : Int) : Option BudgetRec :=
  s.budgets.find? (fun b => b.chat_id == chat_id)

/-- The chat's state, when the chat row exists. -/
def stateOf (s : CoreStore) (chat_id : Int) : Option State :=
  (chatLookup s chat_id).map (fun c => c.state)

/-- `ChatManager._check_state`: selects the chat's state and matches on it.
`CONFIGURED` returns `True`; `INITIAL` and `TERMINATED` log and return
`False`; a missing chat yields `None`, which matches no case, so the Python
function falls off the end and returns `None` — falsy, modelled as `false`. -/
def _check_state (s : CoreStore) (chat_id : Int) : Bool :=
  match stateOf s chat_id with
  | some .CONFIGURED => true
  | some .INITIAL => false
  | some .TERMINATED => false
  | none => false

/-- `ChatManager.engage(replenishment, start_balance=None)`: inserts a new
`Chat` (state defaults to `INITIAL`) and a `Budget`.  `if start_balance:` is a
truthiness test, so `None` and `0` both leave the column default `0`.  The
assignments `chat.latest_msg_received_at = ...` and
`budget.replenishment = replenishment` set instance attributes that are not
declared columns, so neither value is persisted.  Inserting a chat id that
already exists violates the primary key and the commit raises. -/
def engage (s : CoreStore) (chat_id : Int) (replenishment : Int)
    (start_balance : Option Int) (now : Int) : Except PyError CoreStore :=
  let _ := replenishment
  if (chatLookup s chat_id).isSome then .error .integrityError
  else
    let balance : Int :=
      match start_balance with
      | some b => if b == 0 then 0 else b
      | none => 0
    .ok { s with
          chats := s.chats ++
            [{ chat_id := chat_id, state := .INITIAL, created_at := now,
               latest_contact := now }],
          budgets := s.budgets ++ [{ chat_id := chat_id, balance := balance }] }

/-- `ChatManager.get_balance`: returns `None` when `_check_state` fails,
otherwise the selected balance.  Only a SELECT is issued, so the store is
returned unchanged in both branches. -/
def get_balance (s : CoreStore) (chat_id : Int) : Option Int × CoreStore :=
  if _check_state s chat_id = false then (none, s)
  else ((budgetLookup s chat_id).map (fun b => b.balance), s)

/-- `UPDATE budget SET balance = balance + delta WHERE chat_id = chat_id`. -/
def addBalance (s : CoreStore) (chat_id : Int) (delta : Int) : CoreStore :=
  { s with budgets := s.budgets.map fun b =>
      if b.chat_id == chat_id then { b with balance := b.balance + delta } else b }

/-- `ChatManager.spend(amount)`: guarded by `_check_state`; decrements the
balance and commits. -/
def spend (s : CoreStore) (chat_id : Int) (amount : Int) : CoreStore :=
  if _check_state s chat_id = false then s
  else addBalance s chat_id (-amount)

/-- Class-level access `Budget.replenishment`: the `Budget` model declares
only `budget_id`, `chat_id` and `balance`, so this attribute lookup raises
`AttributeError`. -/
def Budget.replenishmentAttr : Except PyError Int :=
  if budgetColumns.contains "replenishment" then .ok 0 else .error .attributeError

/-- `ChatManager.top_up(amount=None)`: guarded by `_check_state`; then
`replenishment = amount or Budget.replenishment` — when `amount` is `None`
(or the falsy `Decimal(0)`) the source evaluates `Budget.replenishment`,
which raises `AttributeError` before any UPDATE is executed, so nothing is
committed.  (The containment wrapper then faults itself: for a no-argument
call its `args[0]` raises `IndexError`, so the failure propagates; either
way the store is unchanged.) -/
def top_up (s : CoreStore) (chat_id : Int) (amount : Option Int) :
    Except PyError CoreStore :=
  if _check_state s chat_id = false then .ok s
  else
    let repl : Except PyError Int :=
      match amount with
      | some a => if a == 0 then Budget.replenishmentAttr else .ok a
      | none => Budget.replenishmentAttr
    match repl with
    | .error e => .error e
    | .ok r => .ok (addBalance s chat_id r)

/-- `ChatManager.annul`: guarded by `_check_state`; sets the balance to 0. -/
def annul (s : CoreStore) (chat_id : Int) : CoreStore :=
  if _check_state s chat_id = false then s
  else { s with budgets := s.budgets.map fun b =>
          if b.chat_id == chat_id then { b with balance := 0 } else b }

/-- `ChatManager.change_replenishment(size)`: guarded by `_check_state`; the
UPDATE names the `replenishment` column, which `Budget` does not declare, so
executing the statement raises and nothing is committed. -/
def change_replenishment (s : CoreStore) (chat_id : Int) (size : Int) :
    Except PyError CoreStore :=
  let _ := size
  if _check_state s chat_id = false then .ok s
  else
    match Budget.replenishmentAttr with
    | .error e => .error e
    | .ok _ => .ok s

/-- `ChatManager.refresh_latest_contact`: unconditionally updates
`latest_contact` to now and commits. -/
def refresh_latest_contact (s : CoreStore) (chat_id : Int) (now : Int) : CoreStore :=
  { s with chats := s.chats.map fun c =>
      if c.chat_id == chat_id then { c with latest_contact := now } else c }

/-- `ChatManager.set_configured`: an unconditional
`UPDATE chat SET state = CONFIGURED WHERE chat_id = chat_id`, with no guard on
the current state, followed by a commit. -/
def set_configured (s : CoreStore) (chat_id : Int) : CoreStore :=
  { s with chats := s.chats.map fun c =>
      if c.chat_id == chat_id then { c with state := .CONFIGURED } else c }

/-- `ChatManager.set_terminated`: an unconditional
`UPDATE chat SET state = TERMINATED WHERE chat_id = chat_id`. -/
def set_terminated (s : CoreStore) (chat_id : Int) : CoreStore :=
  { s with chats := s.chats.map fun c =>
      if c.chat_id == chat_id then { c with state := .TERMINATED } else c }

/-- `ChatManager.add_scheduler_objects_pair`: fetches the chat and runs
`chat.schedule_ids.append(...)`; the `Chat` model declares no `schedule_ids`
(or `task_ids`) column, so the very first attribute access raises
`AttributeError` and nothing is committed. -/
def add_scheduler_objects_pair (s : CoreStore) (chat_id scheduler_id task_id : Int) :
    Except PyError CoreStore :=
  let _ := chat_id
  let _ := scheduler_id
  let _ := task_id
  match chatColumn "schedule_ids" with
  | .error e => .error e
  | .ok _ => .ok s

/-! ## core/managers.py — ScheduleManager -/

/-- `config.TIMEZONE` is read from the environment at process start; its
concrete value is irrelevant to every claim and fixed here. -/
def TIMEZONE : String := "UTC"

/-- Python `f"{x}"` applied to an `EventType` member: `str` of an enum member
is `ClassName.MEMBER`. -/
def pyFormatEventType (e : EventType) : String := "EventType." ++ e.value

/-- Python `f"{x}"` applied to the optional `chat_id` argument. -/
def pyFormatOptInt (x : Option Int) : String :=
  match x with
  | none => "None"
  | some n => toString n

/-- `ScheduleManager.schedule_crontab_task(record, chat_id=None)`.

Raises `TypeError` when `chat_id is None and record.event_type.requires_chat_id`
(never taken: `requires_chat_id` is `False` on every member, see
`EventType.new`).  Builds a `CrontabSchedule` from `record.time` (reading
`.minute` on a `None` time raises `AttributeError`) and, for
`DAY_OF_THE_WEEK`, from `record.day.ordinal_number` (an attribute only
`DayOfTheWeek` members carry); for `DAY_OF_THE_MONTH` it assigns `record.day`
verbatim to `day_of_month`.  Both rows are committed together; their generated
ids are modelled as one past the current table sizes.  Finally, only
`if record.event_type.requires_chat_id` would the generated ids be handed to
`ChatManager.add_scheduler_objects_pair` — dead code for all three members.
Returns the two stores and the generated `(schedule id, task id)` pair. -/
def schedule_crontab_task (ss : ScheduleStore) (core : CoreStore)
    (record : ScheduleEntry) (chat_id : Option Int) :
    Except PyError (ScheduleStore × CoreStore × Int × Int) :=
  if chat_id.isNone && record.event_type.requires_chat_id then .error .typeError
  else
    match record.time with
    | none => .error .attributeError
    | some t =>
      let dow : Except PyError (Option Nat) :=
        if record.basis == some .DAY_OF_THE_WEEK then
          match record._day with
          | some (.weekday w) => .ok (some w.ordinal_number)
          | _ => .error .attributeError
        else .ok none
      match dow with
      | .error e => .error e
      | .ok dowVal =>
        let domVal : Option DayValue :=
          if record.basis == some .DAY_OF_THE_MONTH then record._day else none
        let sid : Int := Int.ofNat ss.crontabs.length + 1
        let tid : Int := Int.ofNat ss.tasks.length + 1
        let cs : CrontabScheduleRec :=
          { id := sid, minute := t.minute, hour := t.hour,
            day_of_week := dowVal, day_of_month := domVal, timezone := TIMEZONE }
        let pt : PeriodicTaskRec :=
          { id := tid,
            name := pyFormatEventType record.event_type ++ "_" ++ pyFormatOptInt chat_id,
            task := record.event_type.task, crontab_id := sid }
        let ss' : ScheduleStore :=
          { crontabs := ss.crontabs ++ [cs], tasks := ss.tasks ++ [pt] }
        if record.event_type.requires_chat_id then
          match add_scheduler_objects_pair core (chat_id.getD 0) sid tid with
          | .error e => .error e
          | .ok core' => .ok (ss', core', sid, tid)
        else .ok (ss', core, sid, tid)

/-! ## core/managers.py — ServiceKeeper -/

/-- The methods the `ServiceKeeper` class actually defines. -/
def serviceKeeperMethods : List String :=
  ["collect_ids_for_termination", "batch_terminate",
   "batch_delete_schedule_objects", "get_message", "upsert_message"]

/-- Attribute access on the `ServiceKeeper` singleton: `AttributeError` for
any name that is not one of its methods. -/
def keeperMethod (name : String) : Except PyError String :=
  if serviceKeeperMethods.contains name then .ok name else .error .attributeError

/-- `ServiceKeeper.collect_ids_for_termination`: builds
`select(Chat.chat_id, Chat.schedule_ids, Chat.task_ids)`, but the `Chat`
model declares no `schedule_ids` or `task_ids` columns, so the class-attribute
access raises `AttributeError` before any row is read.  The id-collecting
loop over idle chats (`now - latest_contact > MAX_IDLE_DAYS`) is therefore
unreachable and cannot be given a faithful value here. -/
def collect_ids_for_termination (s : CoreStore) (now : Int) :
    Except PyError (List Int × List Int × List Int) :=
  let _ := s
  let _ := now
  match chatColumn "chat_id", chatColumn "schedule_ids", chatColumn "task_ids" with
  | .ok _, .ok _, .ok _ => .error .attributeError
  | _, _, _ => .error .attributeError

/-- `ServiceKeeper.batch_terminate(chat_ids)`: one transaction that sets
`state = TERMINATED` for every chat whose id is in the list and deletes every
`Budget` row whose `chat_id` is in the list. -/
def batch_terminate (s : CoreStore) (chat_ids : List Int) : CoreStore :=
  { chats := s.chats.map fun c =>
      if chat_ids.contains c.chat_id then { c with state := .TERMINATED } else c,
    budgets := s.budgets.filter fun b => !chat_ids.contains b.chat_id }

/-- `ServiceKeeper.batch_delete_schedule_objects(schedule_ids, task_ids)`:
one transaction deleting the matching `CrontabSchedule` and `PeriodicTask`
rows. -/
def batch_delete_schedule_objects (ss : ScheduleStore)
    (schedule_ids task_ids : List Int) : ScheduleStore :=
  { crontabs := ss.crontabs.filter fun c => !schedule_ids.contains c.id,
    tasks := ss.tasks.filter fun t => !task_ids.contains t.id }

/-! ## task_manager/tasks.py -/

/-- `terminate_idle_task`: the idle-reaping sweep.  It first calls
`collect_ids_for_termination` (which raises, see above).  Were that to
return, the task would next call `service_keeper.butch_terminate(chat_ids)`
and then `service_keeper.butch_delete(schedule_ids, task_ids)` — in that
order, termination before schedule deletion — but `ServiceKeeper` defines
neither method (its methods are `batch_terminate` and
`batch_delete_schedule_objects`), so each call site resolves to an
`AttributeError`. -/
def terminate_idle_task (core : CoreStore) (sched : ScheduleStore) (now : Int) :
    Except PyError (CoreStore × ScheduleStore) :=
  match collect_ids_for_termination core now with
  | .error e => .error e
  | .ok (chat_ids, schedule_ids, task_ids) =>
      let step1 : Except PyError CoreStore :=
        if chat_ids.isEmpty then .ok core
        else
          match keeperMethod "butch_terminate" with
          | .error e => .error e
          | .ok _ => .ok (batch_terminate core chat_ids)
      match step1 with
      | .error e => .error e
      | .ok core' =>
          let step2 : Except PyError ScheduleStore :=
            if schedule_ids.isEmpty && task_ids.isEmpty then .ok sched
            else
              match keeperMethod "butch_delete" with
              | .error e => .error e
              | .ok _ => .ok (batch_delete_schedule_objects sched schedule_ids task_ids)
          match step2 with
          | .error e => .error e
          | .ok sched' => .ok (core', sched')

/-! ## telegram/bot.py -/

/-- `CurrentHandler` enum: the per-chat configuration-session state. -/
inductive CurrentHandler where
  | EVENT_TYPE
  | BASIS
  | DAY_OF_THE_WEEK
  | DAY_OF_THE_MONTH
  | TIME
  | ON_DUTY
deriving DecidableEq, Repr

/-- The `Bot` class dictionaries: `configs` (chat id → partial
`ScheduleEntry`), `managers` (chat ids holding a constructed `ChatManager`)
and `current_handlers` (chat id → session state). -/
structure BotState where
  configs : List (Int × ScheduleEntry)
  managers : List Int
  current_handlers : List (Int × CurrentHandler)
deriving DecidableEq, Repr

/-- Python dict lookup `d.get(k)`. -/
def assocLookup {α : Type} (l : List (Int × α)) (k : Int) : Option α :=
  (l.find? (fun p => p.1 == k)).map (fun p => p.2)

/-- Python dict assignment `d[k] = v`. -/
def assocSet {α : Type} (l : List (Int × α)) (k : Int) (v : α) : List (Int × α) :=
  if (l.find? (fun p => p.1 == k)).isSome then
    l.map (fun p => if p.1 == k then (k, v) else p)
  else l ++ [(k, v)]

/-- Python dict removal, as performed by `d.pop(k)`. -/
def assocRemove {α : Type} (l : List (Int × α)) (k : Int) : List (Int × α) :=
  l.filter (fun p => p.1 != k)

/-- The numeric value of a decimal digit character, `none` for a non-digit. -/
def digitVal (c : Char) : Option Nat :=
  if '0' ≤ c ∧ c ≤ '9' then some (c.toNat - '0'.toNat) else none

/-- A one- or two-digit decimal number, as `strptime`'s `%H` / `%M`
directives match. -/
def parseDigits : List Char → Option Nat
  | [d] => digitVal d
  | [d1, d2] =>
      match digitVal d1, digitVal d2 with
      | some a, some b => some (10 * a + b)
      | _, _ => none
  | _ => none

/-- Split a character list on `':'`. -/
def splitColon : List Char → List (List Char)
  | [] => [[]]
  | c :: rest =>
      let r := splitColon rest
      if c = ':' then [] :: r
      else
        match r with
        | [] => [[c]]
        | h :: t => (c :: h) :: t

/-- `datetime.strptime(time_str, '%H:%M').time()`: a one- or two-digit hour
below 24 and a one- or two-digit minute below 60 separated by a colon; any
other shape raises `ValueError` (`none` here). -/
def parseHHMM (s : String) : Option PyTime :=
  match splitColon s.data with
  | [h, m] =>
      match parseDigits h, parseDigits m with
      | some hh, some mm =>
          if hh ≤ 23 ∧ mm ≤ 59 then some { hour := hh, minute := mm } else none
      | _, _ => none
  | _ => none

/-- The attributes `ChatManager.__init__` defines on its instances. -/
def chatManagerAttrs : List String := ["chat_id", "schedule_manager"]

/-- `Bot.handle_config_time(message)`.  The `try` block assigns the parsed
time into the chat's partial entry; on `ValueError` the `except` branch
re-sends the time prompt in its error variant
(`request_config_time(chat_id, repeated=True)`) but does **not** return, so
control falls through to the commit sequence in both cases.  That sequence
constructs and `engage`s a `ChatManager` for a first-time chat
(`Decimal(1000), Decimal(1000)`), pops the partial entry from `configs`, and
then reads `chat_manager.scheduler` — an attribute `ChatManager` never
defines (it sets `chat_id` and `schedule_manager`), so `AttributeError` is
raised there and the remaining statements (scheduling the entry,
`refresh_latest_contact`, `set_configured` for `REPLENISHMENT`, the menu
re-render and the handler reset to `EVENT_TYPE`) never run, while the
mutations already made (the committed `engage`, the popped entry) persist.
When the parse succeeded but no partial entry exists, the subscript raises
`KeyError`; when `engage` raises, the containment wrapper's own recovery
(`args[0]` / `getattr(instance, "db_session")` on a `Decimal`) raises
`AttributeError` in turn, so the failure still escapes with the store
unchanged.  The result is the bot state, the two stores and the exception
escaping the handler, if any. -/
def handle_config_time (bs : BotState) (core : CoreStore) (ss : ScheduleStore)
    (chat_id : Int) (text : String) (now : Int) :
    BotState × CoreStore × ScheduleStore × Option PyError :=
  let parsed := parseHHMM text
  if parsed.isSome && (assocLookup bs.configs chat_id).isNone then
    (bs, core, ss, some .keyError)
  else
    let bs1 : BotState :=
      match parsed, assocLookup bs.configs chat_id with
      | some t, some e =>
          { bs with configs := assocSet bs.configs chat_id { e with time := some t } }
      | _, _ => bs
    let engaged : Except PyError (BotState × CoreStore) :=
      if bs1.managers.contains chat_id then .ok (bs1, core)
      else
        match engage core chat_id 1000 (some 1000) now with
        | .ok core' => .ok ({ bs1 with managers := bs1.managers ++ [chat_id] }, core')
        | .error _ => .error .attributeError
    match engaged with
    | .error e => (bs1, core, ss, some e)
    | .ok (bs2, core2) =>
        match assocLookup bs2.configs chat_id with
        | none => (bs2, core2, ss, some .keyError)
        | some _ =>
            let bs3 : BotState := { bs2 with configs := assocRemove bs2.configs chat_id }
            if chatManagerAttrs.contains "scheduler" then
              (bs3, core2, ss, none)
            else (bs3, core2, ss, some .attributeError)

/-! ## Concrete stores and entries used by the closed theorems -/

/-- An empty core store. -/
def emptyCore : CoreStore := { chats := [], budgets := [] }

/-- An empty schedule store. -/
def emptySchedule : ScheduleStore := { crontabs := [], tasks := [] }

/-- The core store produced by `engage emptyCore 1 1000 (some 1000) 0`. -/
def engagedStore : CoreStore :=
  { chats := [{ chat_id := 1, state := .INITIAL, created_at := 0, latest_contact := 0 }],
    budgets := [{ chat_id := 1, balance := 1000 }] }

/-- A store holding one `CONFIGURED` chat with balance 50. -/
def configuredStore : CoreStore :=
  { chats := [{ chat_id := 1, state := .CONFIGURED, created_at := 0, latest_contact := 0 }],
    budgets := [{ chat_id := 1, balance := 50 }] }

/-- A store holding one `TERMINATED` chat. -/
def terminatedStore : CoreStore :=
  { chats := [{ chat_id := 1, state := .TERMINATED, created_at := 0, latest_contact := 0 }],
    budgets := [] }

/-- A store holding one long-idle `CONFIGURED` chat (latest contact at 0,
observed at now = 100 days' worth of idleness). -/
def idleCore : CoreStore :=
  { chats := [{ chat_id := 7, state := .CONFIGURED, created_at := 0, latest_contact := 0 }],
    budgets := [{ chat_id := 7, balance := 10 }] }

/-- A complete REPLENISHMENT / DAILY / 09:00 schedule entry. -/
def entryReplDaily : ScheduleEntry :=
  { event_type := .REPLENISHMENT, basis := some .DAILY,
    time := some { hour := 9, minute := 0 }, _day := none }

/-- A partial REPLENISHMENT / DAILY entry whose time is still unset, as built
by the dialogue right before the TIME step. -/
def entryTimePending : ScheduleEntry :=
  { event_type := .REPLENISHMENT, basis := some .DAILY, time := none, _day := none }

/-- A bot state with chat 1 in the TIME step holding `entryTimePending`, and
no `ChatManager` constructed yet. -/
def botStateTime : BotState :=
  { configs := [(1, entryTimePending)], managers := [],
    current_handlers := [(1, .TIME)] }

/-- The store `configuredStore` becomes after `top_up` with explicit amount
25: the balance rose from 50 to 75. -/
def toppedStore : CoreStore :=
  { chats := [{ chat_id := 1, state := .CONFIGURED, created_at := 0, latest_contact := 0 }],
    budgets := [{ chat_id := 1, balance := 75 }] }

/-- The schedule store after one `schedule_crontab_task` call with
`entryReplDaily` and no chat id. -/
def schedStoreNoChat : ScheduleStore :=
  { crontabs := [{ id := 1, minute := 0, hour := 9, day_of_week := none,
                   day_of_month := none, timezone := TIMEZONE }],
    tasks := [{ id := 1, name := "EventType.REPLENISHMENT_None",
                task := "task_manager.celery_config.refill_balance_task",
                crontab_id := 1 }] }

/-- The schedule store after one `schedule_crontab_task` call with
`entryReplDaily` for chat 1. -/
def schedStoreChat1 : ScheduleStore :=
  { crontabs := [{ id := 1, minute := 0, hour := 9, day_of_week := none,
                   day_of_month := none, timezone := TIMEZONE }],
    tasks := [{ id := 1, name := "EventType.REPLENISHMENT_1",
                task := "task_manager.celery_config.refill_balance_task",
                crontab_id := 1 }] }

/-- Ready-made entries for the `ScheduleEntry` theorems: a `DAILY`, a
`DAY_OF_THE_MONTH` and a `DAY_OF_THE_WEEK` entry with the day still unset. -/
def entryDaily : ScheduleEntry :=
  { event_type := .REPLENISHMENT, basis := some .DAILY, time := none, _day := none }

def entryMonthly : ScheduleEntry :=
  { event_type := .REPLENISHMENT, basis := some .DAY_OF_THE_MONTH, time := none, _day := none }

def entryWeekly : ScheduleEntry :=
  { event_type := .REPLENISHMENT, basis := some .DAY_OF_THE_WEEK, time := none, _day := none }

/-! ## Helper lemmas -/

/-- `find?` over a list in which exactly the rows matching `cid` were rewritten
by an id-preserving `f` returns the `f`-image of the original `find?`. -/
theorem find?_chat_map (l : List ChatRec) (cid : Int) (f : ChatRec → ChatRec)
    (hf : ∀ c, (f c).chat_id = c.chat_id) :
    (l.map fun c => if c.chat_id == cid then f c else c).find? (fun c => c.chat_id == cid)
      = (l.find? fun c => c.chat_id == cid).map f := by
  induction l with
  | nil => rfl
  | cons c l ih =>
      by_cases h : c.chat_id = cid
      · simp [List.find?_cons, h, hf]
      · have hpc : ¬ (c.chat_id == cid) = true := by simp [h]
        simp only [List.map_cons, if_neg hpc]
        rw [@List.find?_cons_of_neg _ (fun x => x.chat_id == cid) c _ hpc,
            @List.find?_cons_of_neg _ (fun x => x.chat_id == cid) c _ hpc, ih]

/-- `_check_state` is `false` whenever the chat row exists with a
non-`CONFIGURED` state. -/
theorem check_state_false (s : CoreStore) (cid : Int) (c : ChatRec)
    (h1 : chatLookup s cid = some c) (h2 : c.state ≠ State.CONFIGURED) :
    _check_state s cid = false := by
  unfold _check_state stateOf
  rw [h1, Option.map_some']
  rcases h : c.state with _ | _ | _
  · rfl
  · exact absurd h h2
  · rfl

/-- `set_configured` rewrites the looked-up chat's state to `CONFIGURED`. -/
theorem chatLookup_set_configured (s : CoreStore) (cid : Int) :
    chatLookup (set_configured s cid) cid
      = (chatLookup s cid).map (fun c => { c with state := .CONFIGURED }) :=
  find?_chat_map s.chats cid _ (fun _ => rfl)

/-- `set_terminated` rewrites the looked-up chat's state to `TERMINATED`. -/
theorem chatLookup_set_terminated (s : CoreStore) (cid : Int) :
    chatLookup (set_terminated s cid) cid
      = (chatLookup s cid).map (fun c => { c with state := .TERMINATED }) :=
  find?_chat_map s.chats cid _ (fun _ => rfl)

/-- `refresh_latest_contact` preserves the looked-up chat's state. -/
theorem chatLookup_refresh (s : CoreStore) (cid : Int) (now : Int) :
    chatLookup (refresh_latest_contact s cid now) cid
      = (chatLookup s cid).map (fun c => { c with latest_contact := now }) :=
  find?_chat_map s.chats cid _ (fun _ => rfl)

/-- `DayOfTheWeek.fromValue` succeeds exactly on the seven member names. -/
theorem fromValue_isSome_iff (s : String) :
    (DayOfTheWeek.fromValue s).isSome = true ↔
      s ∈ (["MONDAY", "TUESDAY", "WEDNESDAY", "THURSDAY", "FRIDAY",
            "SATURDAY", "SUNDAY"] : List String) := by
  constructor
  · intro h
    rcases hm : DayOfTheWeek.fromValue s with _ | d
    · rw [hm] at h; cases h
    · have hv : d.value = s := by
        have := List.find?_some hm
        simpa using this
      cases d <;> simp [DayOfTheWeek.value] at hv <;> simp [← hv]
  · intro h
    fin_cases h <;> rfl

/-! ## The claims -/

/-- C1: the spec claims that after N successful `scheduleCrontabTask` calls
for one chat the chat's `schedule_ids` and `task_ids` both have length N, in
call order.  The code cannot do this: `EventType.__new__` binds the members'
third tuple element `True` to the `model` parameter, leaving
`requires_chat_id` at its default `False` for REPLENISHMENT, ANNULMENT and
REMINDER alike, so the branch that would call `add_scheduler_objects_pair`
is never taken — a successful call for chat 1 returns the core store
completely unchanged.  Moreover the `Chat` model declares no `schedule_ids`
or `task_ids` columns at all, and `add_scheduler_objects_pair` itself would
raise `AttributeError` if it were ever reached. -/
theorem c1_schedule_ids_never_recorded :
    EventType.REPLENISHMENT.requires_chat_id = false
    ∧ EventType.ANNULMENT.requires_chat_id = false
    ∧ EventType.REMINDER.requires_chat_id = false
    ∧ chatColumns.contains "schedule_ids" = false
    ∧ chatColumns.contains "task_ids" = false
    ∧ add_scheduler_objects_pair engagedStore 1 1 1 = .error .attributeError
    ∧ schedule_crontab_task emptySchedule engagedStore entryReplDaily (some 1) =
        .ok (schedStoreChat1, engagedStore, 1, 1) :=
  ⟨rfl, rfl, rfl, rfl, rfl, rfl, rfl⟩

/-- C2: the spec claims every sweep runs collect, then schedule-store
deletion, then core-store termination.  The code's sweep
(`terminate_idle_task`) cannot perform any of the three steps:
`collect_ids_for_termination` selects `Chat.schedule_ids` / `Chat.task_ids`,
columns the `Chat` model does not declare, so it raises `AttributeError`
immediately; and the task's follow-up calls name `butch_terminate` and
`butch_delete`, methods `ServiceKeeper` does not define — placed, even so,
with termination before deletion. -/
theorem c2_sweep_crashes :
    chatColumns.contains "schedule_ids" = false
    ∧ serviceKeeperMethods.contains "butch_terminate" = false
    ∧ serviceKeeperMethods.contains "butch_delete" = false
    ∧ collect_ids_for_termination idleCore 100 = .error .attributeError
    ∧ terminate_idle_task idleCore emptySchedule 100 = .error .attributeError :=
  ⟨rfl, rfl, rfl, rfl, rfl⟩

/-- C3: the spec claims an unparsable time leaves the session in TIME, keeps
the partial entry open and commits nothing.  In the code the `except` branch
of `handle_config_time` re-prompts but does not return, so control falls
through: on input "banana" for the fresh chat 1 the partial entry is popped
(`configs` becomes empty), `engage` is committed to the ledger
(`engagedStore`), and the handler then crashes reading the nonexistent
`chat_manager.scheduler` attribute — only that crash leaves the recorded
handler at TIME. -/
theorem c3_time_error_falls_through :
    parseHHMM "banana" = none
    ∧ handle_config_time botStateTime emptyCore emptySchedule 1 "banana" 0 =
        ({ configs := [], managers := [1], current_handlers := [(1, .TIME)] },
         engagedStore, emptySchedule, some .attributeError) :=
  ⟨rfl, rfl⟩

/-- C4: for every chat row present in the store with a state other than
CONFIGURED, `get_balance` returns the "not configured" signal (`None`) and
leaves the store untouched. -/
theorem c4_get_balance_not_configured (s : CoreStore) (cid : Int) (c : ChatRec)
    (h1 : chatLookup s cid = some c) (h2 : c.state ≠ State.CONFIGURED) :
    get_balance s cid = (none, s) := by
  unfold get_balance
  rw [check_state_false s cid c h1 h2]
  simp

/-- C4 witness: `engage` on the empty store yields `engagedStore`, whose chat
1 is INITIAL, and `get_balance` there signals "not configured". -/
theorem c4_get_balance_not_configured_witness :
    engage emptyCore 1 1000 (some 1000) 0 = .ok engagedStore
    ∧ chatLookup engagedStore 1 =
        some { chat_id := 1, state := .INITIAL, created_at := 0, latest_contact := 0 }
    ∧ get_balance engagedStore 1 = (none, engagedStore) :=
  ⟨rfl, rfl,
   c4_get_balance_not_configured engagedStore 1
     { chat_id := 1, state := .INITIAL, created_at := 0, latest_contact := 0 }
     rfl (by decide)⟩

/-- C5: the spec claims `topUp()` with no amount increases the balance by the
Budget's `replenishment`.  The `Budget` model declares no `replenishment`
column, so `amount or Budget.replenishment` raises `AttributeError` and the
balance is unchanged; only the explicit-amount form works (balance 50 → 75
for amount 25). -/
theorem c5_top_up_default_raises :
    budgetColumns.contains "replenishment" = false
    ∧ top_up configuredStore 1 none = .error .attributeError
    ∧ top_up configuredStore 1 (some 25) = .ok toppedStore :=
  ⟨rfl, rfl, rfl⟩

/-- C6: assigning a non-null day to a `ScheduleEntry` fails unless it
conforms to the basis: under DAILY every value is rejected; under
DAY_OF_THE_MONTH exactly the ints in [1, 31] are accepted; under
DAY_OF_THE_WEEK exactly the weekday members and the seven member-name
strings are accepted. -/
theorem c6_day_validation (e : ScheduleEntry) (v : DayValue) :
    (e.basis = some .DAILY → exceptOk (e.setDay (some v)) = false)
    ∧ (e.basis = some .DAY_OF_THE_MONTH →
        (exceptOk (e.setDay (some v)) = true ↔ ∃ n : Int, v = .int n ∧ 1 ≤ n ∧ n ≤ 31))
    ∧ (e.basis = some .DAY_OF_THE_WEEK →
        (exceptOk (e.setDay (some v)) = true ↔
          (∃ w : DayOfTheWeek, v = .weekday w) ∨
            v ∈ ([.str "MONDAY", .str "TUESDAY", .str "WEDNESDAY", .str "THURSDAY",
                  .str "FRIDAY", .str "SATURDAY", .str "SUNDAY"] : List DayValue))) := by
  refine ⟨?_, ?_, ?_⟩ <;> intro hb
  · simp [ScheduleEntry.setDay, ScheduleEntry.validateDay, hb, exceptOk]
  · cases v with
    | int n =>
        by_cases h : 1 ≤ n ∧ n ≤ 31 <;>
          simp [ScheduleEntry.setDay, ScheduleEntry.validateDay, hb, exceptOk, h]
    | str s =>
        simp [ScheduleEntry.setDay, ScheduleEntry.validateDay, hb, exceptOk]
    | weekday w =>
        simp [ScheduleEntry.setDay, ScheduleEntry.validateDay, hb, exceptOk]
  · cases v with
    | int n =>
        simp [ScheduleEntry.setDay, ScheduleEntry.validateDay, hb, exceptOk]
    | str s =>
        rcases hfv : DayOfTheWeek.fromValue s with _ | d
        · have hmem : ¬ s ∈ (["MONDAY", "TUESDAY", "WEDNESDAY", "THURSDAY", "FRIDAY",
              "SATURDAY", "SUNDAY"] : List String) := by
            intro hin
            have := (fromValue_isSome_iff s).mpr hin
            rw [hfv] at this
            cases this
          simp [ScheduleEntry.setDay, ScheduleEntry.validateDay, hb, exceptOk, hfv]
          simpa using hmem
        · have hmem : s ∈ (["MONDAY", "TUESDAY", "WEDNESDAY", "THURSDAY", "FRIDAY",
              "SATURDAY", "SUNDAY"] : List String) :=
            (fromValue_isSome_iff s).mp (by rw [hfv]; rfl)
          simp [ScheduleEntry.setDay, ScheduleEntry.validateDay, hb, exceptOk, hfv]
          simpa using hmem
    | weekday w =>
        simp [ScheduleEntry.setDay, ScheduleEntry.validateDay, hb, exceptOk]

/-- C6 witness: concrete instances of each conjunct — day 5 is rejected under
DAILY, accepted under DAY_OF_THE_MONTH, and the string "MONDAY" is accepted
under DAY_OF_THE_WEEK. -/
theorem c6_day_validation_witness :
    exceptOk (entryDaily.setDay (some (.int 5))) = false
    ∧ exceptOk (entryMonthly.setDay (some (.int 5))) = true
    ∧ exceptOk (entryWeekly.setDay (some (.str "MONDAY"))) = true :=
  ⟨(c6_day_validation entryDaily (.int 5)).1 rfl,
   ((c6_day_validation entryMonthly (.int 5)).2.1 rfl).mpr ⟨5, rfl, by decide, by decide⟩,
   ((c6_day_validation entryWeekly (.str "MONDAY")).2.2 rfl).mpr (Or.inr (by decide))⟩

/-- C7 counterexample: the claim says TERMINATED is terminal and
`setConfigured` is a no-op on a TERMINATED chat; on the concrete store whose
chat 1 is TERMINATED, `set_configured` moves the state to CONFIGURED. -/
theorem c7_terminated_not_terminal_cex :
    stateOf terminatedStore 1 = some State.TERMINATED
    ∧ stateOf (set_configured terminatedStore 1) 1 = some State.CONFIGURED :=
  ⟨rfl, rfl⟩

/-- C7 (amended): `set_configured` is an unconditional state update — it sets
CONFIGURED whatever the current state, so it moves even a TERMINATED chat to
CONFIGURED; every other ledger operation leaves a TERMINATED chat's state
TERMINATED (the `_check_state`-guarded operations return the store unchanged,
`refresh_latest_contact` touches only `latest_contact`, and `set_terminated`
re-sets TERMINATED). -/
theorem c7_amended_transitions (s : CoreStore) (cid : Int) (c : ChatRec)
    (amt sz now : Int) (oamt : Option Int)
    (h1 : chatLookup s cid = some c) (h2 : c.state = State.TERMINATED) :
    stateOf (set_configured s cid) cid = some State.CONFIGURED
    ∧ (get_balance s cid).2 = s
    ∧ spend s cid amt = s
    ∧ top_up s cid oamt = .ok s
    ∧ annul s cid = s
    ∧ change_replenishment s cid sz = .ok s
    ∧ stateOf (refresh_latest_contact s cid now) cid = some State.TERMINATED
    ∧ stateOf (set_terminated s cid) cid = some State.TERMINATED := by
  have hne : c.state ≠ State.CONFIGURED := by rw [h2]; intro hcon; cases hcon
  have hchk := check_state_false s cid c h1 hne
  refine ⟨?_, ?_, ?_, ?_, ?_, ?_, ?_, ?_⟩
  · unfold stateOf
    rw [chatLookup_set_configured, h1]
    rfl
  · unfold get_balance
    rw [hchk]
    simp
  · unfold spend
    rw [hchk]
    simp
  · unfold top_up
    rw [hchk]
    simp
  · unfold annul
    rw [hchk]
    simp
  · unfold change_replenishment
    rw [hchk]
    simp
  · unfold stateOf
    rw [chatLookup_refresh, h1, Option.map_some', Option.map_some']
    exact congrArg some h2
  · unfold stateOf
    rw [chatLookup_set_terminated, h1]
    rfl

/-- C7 amended witness: the amended transitions instantiated on the concrete
TERMINATED store. -/
theorem c7_amended_transitions_witness :
    stateOf (set_configured terminatedStore 1) 1 = some State.CONFIGURED
    ∧ spend terminatedStore 1 5 = terminatedStore
    ∧ top_up terminatedStore 1 none = .ok terminatedStore
    ∧ annul terminatedStore 1 = terminatedStore
    ∧ stateOf (set_terminated terminatedStore 1) 1 = some State.TERMINATED := by
  have h := c7_amended_transitions terminatedStore 1
    { chat_id := 1, state := .TERMINATED, created_at := 0, latest_contact := 0 }
    5 7 3 none rfl rfl
  exact ⟨h.1, h.2.2.1, h.2.2.2.1, h.2.2.2.2.1, h.2.2.2.2.2.2.2⟩

/-- C8: `batch_terminate` is idempotent — running it a second time on the
same ids re-sets TERMINATED on already-terminated chats and deletes
already-absent budgets, leaving the store exactly as after the first run. -/
theorem c8_batch_terminate_idempotent (s : CoreStore) (ids : List Int) :
    batch_terminate (batch_terminate s ids) ids = batch_terminate s ids := by
  unfold batch_terminate
  dsimp only
  congr 1
  · rw [List.map_map]
    apply List.map_congr_left
    intro c _
    simp only [Function.comp_apply]
    by_cases h : c.chat_id ∈ ids <;> simp [h]
  · rw [List.filter_filter]
    congr 1
    funext b
    rw [Bool.and_self]

/-- C9: the spec claims `scheduleCrontabTask` with no chat id fails with a
type error and writes nothing for REPLENISHMENT/ANNULMENT/REMINDER entries.
Because `EventType.__new__` leaves `requires_chat_id = False` on every
member, the guard never fires: the call with `chat_id=None` returns normally
and commits the crontab/periodic-task pair to the schedule store. -/
theorem c9_missing_chat_id_not_rejected :
    EventType.REPLENISHMENT.requires_chat_id = false
    ∧ schedule_crontab_task emptySchedule emptyCore entryReplDaily none =
        .ok (schedStoreNoChat, emptyCore, 1, 1) :=
  ⟨rfl, rfl⟩

/-- C10: `ScheduleEntry.__init__` assigns `_day` directly and never
validates, so construction always succeeds — a DAILY entry with a day, and a
DAY_OF_THE_MONTH entry with day 0, are created verbatim; validation runs
only through the `day` property setter, which rejects those very values when
given non-None and skips validation for None. -/
theorem c10_constructor_skips_validation (et : EventType) (b : Option ScheduleBasis)
    (t : Option PyTime) (d : Option DayValue) (v : DayValue) :
    ScheduleEntry.init et b t d = { event_type := et, basis := b, time := t, _day := d }
    ∧ (ScheduleEntry.init et (some .DAILY) t (some v))._day = some v
    ∧ (ScheduleEntry.init et (some .DAY_OF_THE_MONTH) t (some (.int 0)))._day = some (.int 0)
    ∧ exceptOk ((ScheduleEntry.init et (some .DAILY) t none).setDay (some v)) = false
    ∧ exceptOk ((ScheduleEntry.init et (some .DAY_OF_THE_MONTH) t none).setDay (some (.int 0))) = false
    ∧ (∀ e : ScheduleEntry, e.setDay none = .ok { e with _day := none }) := by
  refine ⟨rfl, rfl, rfl, ?_, ?_, fun e => rfl⟩
  · simp [ScheduleEntry.init, ScheduleEntry.setDay, ScheduleEntry.validateDay, exceptOk]
  · simp [ScheduleEntry.init, ScheduleEntry.setDay, ScheduleEntry.validateDay, exceptOk]

end Budgenator
